import Mathlib

/-!
Verification of the parallel-tempering coordinator
(`src/PT-flow/parallel_tempering.py`, initial state from
`src/PT-flow/init_PT.py`) against its natural-language specification.

The Python coordinator is shallowly embedded: the persisted signac job
document becomes the `Doc` structure, the replica snapshot files (`restart.gsd`
per simulation job) become an `FS` value holding one `Snapshot` per ladder
index, randomness is an oracle stream, and the blocking status poll is an
oracle stream of boolean poll outcomes.  Python exceptions become explicit
error values; since signac persists every document mutation immediately, an
aborted operation carries the state as mutated up to the point of failure.
-/

namespace PT

/-- One frame of a replica's persisted `restart.gsd` checkpoint, keeping the
fields the coordinator can affect: the particle-position array plus the
non-position payload (box, particle count, type ids, type names).  Position
entries are abstract tokens (the coordinator never computes with them, it only
moves whole arrays between files). -/
structure Snapshot where
  position : List Int
  box : List Int
  nParticles : Nat
  typeid : List Nat
  types : List String
deriving Repr, DecidableEq

/-- The snapshot files of the simulation ladder, indexed by ladder position
(the order produced by the grouped `find_jobs` query). -/
structure FS where
  files : List Snapshot
deriving Repr, DecidableEq

/-- Error taxonomy of the coordinator, named as in the specification.
`insufficientReplicas` models the `ValueError` Python's `random.randint`
raises on an empty range (`randint(1, len - 1)` with `len < 2`);
`snapshotUnavailable` models a failed `gsd.hoomd.open` read (file absent or
unreadable); `writeFailed` models a failed snapshot write. -/
inductive PTError where
  | insufficientReplicas : PTError
  | snapshotUnavailable : Nat → PTError
  | writeFailed : Nat → PTError
deriving Repr, DecidableEq

/-- Fault injection: which ladder indices fail on snapshot read and which on
snapshot write.  The real code has no retry around either operation. -/
structure Faults where
  readFails : Nat → Bool
  writeFails : Nat → Bool

/-- No injected faults. -/
def noFaults : Faults := ⟨fun _ => false, fun _ => false⟩

/-- `gsd.hoomd.open(job.fn("restart.gsd"))[0]`: read the snapshot of the
replica at ladder index `idx`; fails when the fault oracle says so or when the
index has no file. -/
def readSnapshot (f : Faults) (fs : FS) (idx : Nat) : Except PTError Snapshot :=
  if f.readFails idx then .error (.snapshotUnavailable idx)
  else
    match fs.files[idx]? with
    | some s => .ok s
    | none => .error (.snapshotUnavailable idx)

/-- `gsd.hoomd.open(job.fn("restart.gsd"), "wb")` followed by
`traj.append(snap)`: overwrite the snapshot file at ladder index `idx` in
place (the code stages nothing; there is no temp-then-rename). -/
def writeSnapshot (f : Faults) (fs : FS) (idx : Nat) (s : Snapshot) :
    Except PTError FS :=
  if f.writeFails idx then .error (.writeFailed idx)
  else .ok ⟨fs.files.set idx s⟩

/-- One entry of `job.doc["swap_history"]` as appended at
`parallel_tempering.py:236-237`. -/
structure SwapRecord where
  i : Nat
  j : Nat
  param_i : Int
  param_j : Int
  job_i : Nat
  job_j : Nat
  done : Bool
deriving Repr, DecidableEq

/-- The coordinator's persisted job document (`job.doc`), as initialized by
`init_PT.py:48-51`: `done`, `current_attempt`, `swap_history`. -/
structure Doc where
  current_attempt : Nat
  swap_history : List SwapRecord
  done : Bool
deriving Repr, DecidableEq

/-- The document as `init_PT.py` creates it: `done = False`,
`current_attempt = 0`, `swap_history = []`. -/
def initDoc : Doc := ⟨0, [], false⟩

/-- Python's `random.randint(lo, hi)` driven by an oracle draw `r`: raises
(`ValueError`, here `insufficientReplicas` since the only call site is
`randint(1, len(sim_jobs) - 1)`) when the range is empty, otherwise returns a
value in `[lo, hi]`. -/
def randint (lo : Nat) (hi : Int) (r : Nat) : Except PTError Nat :=
  if hi < lo then .error .insufficientReplicas
  else .ok (lo + r % (hi - lo + 1).toNat)

/-- Pair selection, `parallel_tempering.py:223-225`:
`i = random.randint(1, len(sim_jobs) - 1)`, `j = i - 1`. -/
def selectPair (n : Nat) (r : Nat) : Except PTError (Nat × Nat) :=
  (randint 1 ((n : Int) - 1) r).map fun i => (i, i - 1)

/-- The `wait` decorator's retry loop (`parallel_tempering.py:100-111`) around
`_check_status` (`:126-127`), with time abstracted to the index `k` of the
status evaluation: starting at `retries`, while `retries < max_tries` evaluate
the status oracle; on `true` return `true`, otherwise count one `extra_wait`
sleep and retry.  Returns the result together with the number of `extra_wait`
sleeps performed. -/
def waitFrom (allDone : Nat → Bool) (max_tries retries k sleeps : Nat) :
    Bool × Nat :=
  if retries < max_tries then
    if allDone k then (true, sleeps)
    else waitFrom allDone max_tries (retries + 1) (k + 1) (sleeps + 1)
  else (false, sleeps)
termination_by max_tries - retries

/-- `check_status` (`parallel_tempering.py:124-129`): run the retry loop from
`retries = 0` after the initial sleep (the initial sleep is unconditional and
not counted here). -/
def check_status (allDone : Nat → Bool) (max_tries : Nat) : Bool × Nat :=
  waitFrom allDone max_tries 0 0 0

/-- `update_swap_info` (`parallel_tempering.py:132-133`) as it affects the
coordinator document: set `done = True` on the last entry of `swap_history`
(signac's synced containers persist the in-place mutation).  The clearing of
the two participants' `swap` flags touches the simulation jobs' documents, not
the coordinator document. -/
def markLastDone (doc : Doc) : Doc :=
  match doc.swap_history.getLast? with
  | none => doc
  | some last =>
      { doc with
        swap_history :=
          doc.swap_history.dropLast ++ [{ last with done := true }] }

/-- Lines 212-216 of `sample`: when `current_attempt > 0`, finalize the
previous swap by marking its record done; otherwise the document is left
alone. -/
def finalizePrev (doc : Doc) : Doc :=
  if doc.current_attempt > 0 then markLastDone doc else doc

/-- The swap block of `sample` (`parallel_tempering.py:236-252`) for a chosen
upper index `i`: append the new `swap_history` record and increment
`current_attempt` (lines 236-238, persisted immediately), then read both
snapshots (240-244), then overwrite replica `i`'s file with `j`'s positions
and replica `j`'s file with `i`'s positions (247-252).  A failure aborts the
remaining steps but keeps every mutation already made. -/
def swapBody (params : List Int) (f : Faults) (doc : Doc) (fs : FS) (i : Nat) :
    Doc × FS × Option PTError :=
  let j := i - 1
  let doc' : Doc :=
    { doc with
      swap_history := doc.swap_history ++
        [⟨i, j, params.getD i 0, params.getD j 0, i, j, false⟩],
      current_attempt := doc.current_attempt + 1 }
  match readSnapshot f fs i with
  | .error e => (doc', fs, some e)
  | .ok snapshot_i =>
    match readSnapshot f fs j with
    | .error e => (doc', fs, some e)
    | .ok snapshot_j =>
      match writeSnapshot f fs i { snapshot_i with position := snapshot_j.position } with
      | .error e => (doc', fs, some e)
      | .ok fs1 =>
        match writeSnapshot f fs1 j { snapshot_j with position := snapshot_i.position } with
        | .error e => (doc', fs1, some e)
        | .ok fs2 => (doc', fs2, none)

/-- Outcome of one pass through the `while` loop of `sample`
(`parallel_tempering.py:202-257`). -/
inductive IterResult where
  | exited : Doc → FS → IterResult
  | next : Doc → FS → IterResult
  | failed : Doc → FS → PTError → IterResult
deriving Repr, DecidableEq

/-- One pass through the body of `while job.doc["current_attempt"] <=
job.sp.n_attempts`: if the loop condition fails, exit and set
`job.doc["done"] = True` (line 257); otherwise poll (`check_status`, line
211); on a false poll the iteration does nothing; on a true poll finalize the
previous swap when `current_attempt > 0` (lines 212-216), select the pair
(lines 223-225; `randint` raises on ladders shorter than 2), and run the swap
block.  `poll` and `r` are the poll outcome and the random draw for this
iteration. -/
def loopIter (n_attempts nJobs : Nat) (params : List Int) (f : Faults)
    (poll : Bool) (r : Nat) (doc : Doc) (fs : FS) : IterResult :=
  if doc.current_attempt ≤ n_attempts then
    if poll then
      let doc1 := finalizePrev doc
      match randint 1 ((nJobs : Int) - 1) r with
      | .error e => .failed doc1 fs e
      | .ok i =>
        match swapBody params f doc1 fs i with
        | (doc2, fs2, some e) => .failed doc2 fs2 e
        | (doc2, fs2, none) => .next doc2 fs2
    else .next doc fs
  else .exited { doc with done := true } fs

/-- Outcome of running the attempt loop to quiescence. -/
inductive RunResult where
  | completed : Doc → FS → RunResult
  | outOfFuel : Doc → FS → RunResult
  | failed : Doc → FS → PTError → RunResult
deriving Repr, DecidableEq

/-- The full attempt loop of `sample`, iterating `loopIter`.  `polls` and
`rand` are the streams of poll outcomes and random draws, indexed by the
iteration counter `k`; `fuel` bounds the number of passes (the Python loop
spins forever when polls keep failing). -/
def sampleLoop (fuel : Nat) (n_attempts nJobs : Nat) (params : List Int)
    (f : Faults) (polls : Nat → Bool) (rand : Nat → Nat) (k : Nat)
    (doc : Doc) (fs : FS) : RunResult :=
  match fuel with
  | 0 => .outOfFuel doc fs
  | fuel + 1 =>
    match loopIter n_attempts nJobs params f (polls k) (rand k) doc fs with
    | .exited doc' fs' => .completed doc' fs'
    | .failed doc' fs' e => .failed doc' fs' e
    | .next doc' fs' =>
        sampleLoop fuel n_attempts nJobs params f polls rand (k + 1) doc' fs'

/-- The ladder construction of `sample` (`parallel_tempering.py:195-200`)
followed by the attempt loop: the grouped `find_jobs` query runs once, before
the loop, and the resulting parameter list is fixed for every attempt.
`store` is the collaborator job store as a function of query time: `store q`
is the parameter ladder the store would report at the `q`-th query. -/
def sampleRun (fuel : Nat) (n_attempts : Nat) (store : Nat → List Int)
    (f : Faults) (polls : Nat → Bool) (rand : Nat → Nat)
    (doc : Doc) (fs : FS) : RunResult :=
  let params := store 0
  sampleLoop fuel n_attempts params.length params f polls rand 0 doc fs

/-- The coordinator document held in a run outcome. -/
def RunResult.doc : RunResult → Doc
  | .completed d _ => d
  | .outOfFuel d _ => d
  | .failed d _ _ => d

/-- The snapshot files held in a run outcome. -/
def RunResult.fs : RunResult → FS
  | .completed _ s => s
  | .outOfFuel _ s => s
  | .failed _ s _ => s

/-- Fixture: a two-rung ladder's snapshot files, with distinguishable
positions and non-position payloads, used by concrete witnesses. -/
def snapA : Snapshot := ⟨[1, 2], [7], 2, [0, 0], ["A"]⟩

/-- Fixture: second rung's snapshot. -/
def snapB : Snapshot := ⟨[3, 4], [8], 2, [1, 1], ["B"]⟩

/-- Fixture: the two-rung file store. -/
def fsAB : FS := ⟨[snapA, snapB]⟩

end PT

namespace PT

/-! ### Helper lemmas shared across the claims -/

theorem randint_ok (n r : Nat) (hn : 2 ≤ n) :
    randint 1 ((n : Int) - 1) r = .ok (1 + r % (n - 1)) := by
  have h1 : ¬ ((n : Int) - 1 < 1) := by omega
  have h2 : (((n : Int) - 1) - 1 + 1).toNat = n - 1 := by omega
  simp [randint, h1, h2]

theorem markLastDone_length (doc : Doc) :
    (markLastDone doc).swap_history.length = doc.swap_history.length := by
  unfold markLastDone
  cases h : doc.swap_history.getLast? with
  | none => rfl
  | some last =>
      have hne : doc.swap_history ≠ [] := by
        intro he; rw [he] at h; simp at h
      have : doc.swap_history.length ≠ 0 := by
        simpa [List.length_eq_zero] using hne
      simp [List.length_dropLast]
      omega

theorem markLastDone_attempt (doc : Doc) :
    (markLastDone doc).current_attempt = doc.current_attempt := by
  unfold markLastDone
  cases h : doc.swap_history.getLast? <;> rfl

/-! ### C4 — poller with `maxRetries = 0` -/

/-- C4 counterexample: with every replica already done, `check_status` with
`max_tries = 0` still returns `false` (the status is never evaluated), while
the claim says it returns true when all replicas are done at call time. -/
theorem C4_counterexample :
    check_status (fun _ => true) 0 = (false, 0) := by
  simp [check_status, waitFrom]

/-- C4 amended: `waitUntilAllDone` with `maxRetries = 0` returns `false`
unconditionally — the `allDone` status is never evaluated because the retry
loop `while retries < max_tries` runs zero times — and performs no sleep
beyond the initial delay. -/
theorem C4_amended (allDone : Nat → Bool) :
    check_status allDone 0 = (false, 0) := by
  simp [check_status, waitFrom]

/-! ### C6 — ladders shorter than 2 -/

/-- C6: on a ladder of fewer than 2 replicas, pair selection fails with the
`InsufficientReplicas` error (the empty-range failure of
`random.randint(1, len - 1)`), and an attempt iteration whose poll succeeded
aborts with that error before appending any record or touching any snapshot
file. -/
theorem C6_insufficient_replicas (nA nJobs r : Nat) (params : List Int)
    (f : Faults) (doc : Doc) (fs : FS)
    (hn : nJobs < 2) (hle : doc.current_attempt ≤ nA) :
    selectPair nJobs r = .error .insufficientReplicas ∧
    loopIter nA nJobs params f true r doc fs =
      .failed (finalizePrev doc) fs .insufficientReplicas := by
  have h1 : ((nJobs : Int) - 1 < 1) := by omega
  constructor
  · simp [selectPair, randint, h1, Except.map]
  · simp [loopIter, hle, randint, h1]

/-- C6 witness: concrete one-replica ladder. -/
theorem C6_insufficient_replicas_witness :
    selectPair 1 0 = .error .insufficientReplicas ∧
    loopIter 2 1 [10] noFaults true 0 initDoc ⟨[snapA]⟩ =
      .failed (finalizePrev initDoc) ⟨[snapA]⟩ .insufficientReplicas :=
  C6_insufficient_replicas 2 1 0 [10] noFaults initDoc ⟨[snapA]⟩
    (by decide) (by decide)

/-! ### C8 — pair selection on ladders of size ≥ 2 -/

/-- C8: for every ladder of size at least 2 and every random draw,
`selectPair` returns `(i, j)` with `i` in `[1, len - 1]` and `j = i - 1`
(stated as `j + 1 = i`); hence `j` is never negative, `i ≠ j`, and index 0
can only appear as the lower member `j`. -/
theorem C8_selectPair_adjacent (n r : Nat) (hn : 2 ≤ n) :
    ∃ i j : Nat, selectPair n r = .ok (i, j) ∧
      1 ≤ i ∧ i ≤ n - 1 ∧ j + 1 = i ∧ i ≠ j := by
  have hm : r % (n - 1) < n - 1 := Nat.mod_lt r (by omega)
  refine ⟨1 + r % (n - 1), r % (n - 1), ?_, ?_, ?_, ?_, ?_⟩
  · simp [selectPair, randint_ok n r hn, Except.map]
  · omega
  · omega
  · omega
  · omega

/-- C8 witness: ladder of 4, draw 7. -/
theorem C8_selectPair_adjacent_witness :
    ∃ i j : Nat, selectPair 4 7 = .ok (i, j) ∧
      1 ≤ i ∧ i ≤ 4 - 1 ∧ j + 1 = i ∧ i ≠ j :=
  C8_selectPair_adjacent 4 7 (by decide)

/-! ### The fault-free swap block -/

theorem swapBody_noFaults (params : List Int) (doc : Doc) (fs : FS) (i : Nat)
    (si sj : Snapshot)
    (hsi : fs.files[i]? = some si) (hsj : fs.files[i - 1]? = some sj) :
    swapBody params noFaults doc fs i =
      ({ doc with
         swap_history := doc.swap_history ++
           [⟨i, i - 1, params.getD i 0, params.getD (i - 1) 0, i, i - 1, false⟩],
         current_attempt := doc.current_attempt + 1 },
       ⟨(fs.files.set i { si with position := sj.position }).set (i - 1)
          { sj with position := si.position }⟩,
       none) := by
  simp [swapBody, readSnapshot, writeSnapshot, noFaults, hsi, hsj]

/-! ### C2 — failure of the second snapshot write -/

/-- C2 counterexample: with a ladder of two replicas, upper index `i = 1`, and
a write failure injected on the second write (ladder index 0), the swap block
reports the write failure but the first-written replica's file (index 1)
already holds its partner's position array, not its original one — the
partial swap is observable, refuting the all-or-nothing claim. -/
theorem C2_counterexample :
    (swapBody [10, 20] ⟨fun _ => false, fun idx => idx == 0⟩
        initDoc fsAB 1).2.2 = some (.writeFailed 0) ∧
    (swapBody [10, 20] ⟨fun _ => false, fun idx => idx == 0⟩
        initDoc fsAB 1).2.1.files[1]? =
      some { snapB with position := snapA.position } ∧
    ({ snapB with position := snapA.position } : Snapshot) ≠ snapB := by
  decide

/-- C2 amended: snapshot writes are in-place with no staging, so they are not
all-or-nothing across the pair: when the write of the second replica's
snapshot fails after the first replica's snapshot has been written, the first
replica's file holds the partner's position array (a partial swap is
observable); only the second replica's file keeps its original content. -/
theorem C2_amended (params : List Int) (f : Faults) (doc : Doc) (fs : FS)
    (i : Nat) (si sj : Snapshot)
    (hsi : fs.files[i]? = some si) (hsj : fs.files[i - 1]? = some sj)
    (h1 : 1 ≤ i)
    (hri : f.readFails i = false) (hrj : f.readFails (i - 1) = false)
    (hwi : f.writeFails i = false) (hwj : f.writeFails (i - 1) = true) :
    (swapBody params f doc fs i).2.1.files[i]? =
        some { si with position := sj.position } ∧
    (swapBody params f doc fs i).2.1.files[i - 1]? = some sj ∧
    (swapBody params f doc fs i).2.2 = some (.writeFailed (i - 1)) := by
  obtain ⟨hi, -⟩ := List.getElem?_eq_some.mp hsi
  have hne : i ≠ i - 1 := by omega
  have hbody : swapBody params f doc fs i =
      ({ doc with
         swap_history := doc.swap_history ++
           [⟨i, i - 1, params.getD i 0, params.getD (i - 1) 0, i, i - 1, false⟩],
         current_attempt := doc.current_attempt + 1 },
       ⟨fs.files.set i { si with position := sj.position }⟩,
       some (.writeFailed (i - 1))) := by
    simp [swapBody, readSnapshot, writeSnapshot, hri, hrj, hwi, hwj, hsi, hsj]
  refine ⟨?_, ?_, ?_⟩
  · rw [hbody]
    exact List.getElem?_set_self hi
  · rw [hbody]
    exact (List.getElem?_set_ne hne).trans hsj
  · rw [hbody]

/-- C2 amended witness: the concrete two-rung ladder with the second write
failing. -/
theorem C2_amended_witness :
    (swapBody [10, 20] ⟨fun _ => false, fun idx => idx == 0⟩
        initDoc fsAB 1).2.1.files[1]? =
      some { snapB with position := snapA.position } ∧
    (swapBody [10, 20] ⟨fun _ => false, fun idx => idx == 0⟩
        initDoc fsAB 1).2.1.files[0]? = some snapA ∧
    (swapBody [10, 20] ⟨fun _ => false, fun idx => idx == 0⟩
        initDoc fsAB 1).2.2 = some (.writeFailed 0) :=
  C2_amended [10, 20] ⟨fun _ => false, fun idx => idx == 0⟩ initDoc fsAB 1
    snapB snapA (by decide) (by decide) (by decide)
    (by decide) (by decide) (by decide) (by decide)

/-! ### C3 — snapshot read failure during swap application -/

/-- C3 counterexample: with a read failure injected on the upper replica's
snapshot, the swap aborts with `SnapshotUnavailable`, yet the persisted
coordinator state already holds the new `SwapRecord` and the incremented
`currentAttempt` (the document mutations precede the snapshot reads),
refuting the claim that the state is unmutated past the last completed
step. -/
theorem C3_counterexample :
    (swapBody [10, 20] ⟨fun idx => idx == 1, fun _ => false⟩
        initDoc fsAB 1).2.2 = some (.snapshotUnavailable 1) ∧
    (swapBody [10, 20] ⟨fun idx => idx == 1, fun _ => false⟩
        initDoc fsAB 1).1.swap_history.length = 1 ∧
    (swapBody [10, 20] ⟨fun idx => idx == 1, fun _ => false⟩
        initDoc fsAB 1).1.current_attempt = 1 := by
  decide

/-- C3 amended: when reading either replica's snapshot fails, the swap aborts
with `SnapshotUnavailable` before either snapshot file is mutated, but the
persisted coordinator state is already mutated for the aborted swap: the new
`SwapRecord` has been appended and `currentAttempt` incremented, because the
code performs both document mutations before the first snapshot read. -/
theorem C3_amended (params : List Int) (f : Faults) (doc : Doc) (fs : FS)
    (i : Nat)
    (h : f.readFails i = true ∨ f.readFails (i - 1) = true) :
    (swapBody params f doc fs i).2.1 = fs ∧
    (swapBody params f doc fs i).1.swap_history =
      doc.swap_history ++
        [⟨i, i - 1, params.getD i 0, params.getD (i - 1) 0, i, i - 1, false⟩] ∧
    (swapBody params f doc fs i).1.current_attempt =
      doc.current_attempt + 1 ∧
    ∃ idx, (swapBody params f doc fs i).2.2 =
      some (.snapshotUnavailable idx) := by
  have step : ∃ idx, swapBody params f doc fs i =
      ({ doc with
         swap_history := doc.swap_history ++
           [⟨i, i - 1, params.getD i 0, params.getD (i - 1) 0, i, i - 1,
             false⟩],
         current_attempt := doc.current_attempt + 1 },
       fs, some (.snapshotUnavailable idx)) := by
    rcases h with h | h
    · exact ⟨i, by simp [swapBody, readSnapshot, h]⟩
    · cases hri : f.readFails i with
      | true => exact ⟨i, by simp [swapBody, readSnapshot, hri]⟩
      | false =>
        cases hfi : fs.files[i]? with
        | none => exact ⟨i, by simp [swapBody, readSnapshot, hri, hfi]⟩
        | some s =>
            exact ⟨i - 1, by simp [swapBody, readSnapshot, hri, hfi, h]⟩
  obtain ⟨idx, hstep⟩ := step
  exact ⟨by rw [hstep], by rw [hstep], by rw [hstep], idx, by rw [hstep]⟩

/-- C3 amended witness: the concrete two-rung ladder with the upper read
failing. -/
theorem C3_amended_witness :
    (swapBody [10, 20] ⟨fun idx => idx == 1, fun _ => false⟩
        initDoc fsAB 1).2.1 = fsAB ∧
    (swapBody [10, 20] ⟨fun idx => idx == 1, fun _ => false⟩
        initDoc fsAB 1).1.swap_history =
      initDoc.swap_history ++
        [⟨1, 1 - 1, List.getD [10, 20] 1 0, List.getD [10, 20] (1 - 1) 0,
          1, 1 - 1, false⟩] ∧
    (swapBody [10, 20] ⟨fun idx => idx == 1, fun _ => false⟩
        initDoc fsAB 1).1.current_attempt = initDoc.current_attempt + 1 ∧
    ∃ idx, (swapBody [10, 20] ⟨fun idx => idx == 1, fun _ => false⟩
        initDoc fsAB 1).2.2 = some (.snapshotUnavailable idx) :=
  C3_amended [10, 20] ⟨fun idx => idx == 1, fun _ => false⟩ initDoc fsAB 1
    (Or.inl (by decide))

theorem mk_files_eq {L : List Snapshot} {fs : FS} (h : L = fs.files) :
    FS.mk L = fs := by
  cases fs
  cases h
  rfl

/-! ### C10 — the swap exchanges only the position arrays -/

/-- C10: a fault-free swap on a valid pair replaces exactly the position
arrays: replica `i`'s file afterwards is its own snapshot with only the
position array replaced by the partner's (box, particle count, type ids and
type names untouched), symmetrically for replica `j = i - 1`, and every other
replica's file is unchanged. -/
theorem C10_swap_positions_only (params : List Int) (doc : Doc) (fs : FS)
    (i : Nat) (si sj : Snapshot) (h1 : 1 ≤ i)
    (hsi : fs.files[i]? = some si) (hsj : fs.files[i - 1]? = some sj) :
    (swapBody params noFaults doc fs i).2.1.files[i]? =
        some { si with position := sj.position } ∧
    (swapBody params noFaults doc fs i).2.1.files[i - 1]? =
        some { sj with position := si.position } ∧
    (∀ k, k ≠ i → k ≠ i - 1 →
        (swapBody params noFaults doc fs i).2.1.files[k]? = fs.files[k]?) ∧
    (swapBody params noFaults doc fs i).2.2 = none := by
  obtain ⟨hi, -⟩ := List.getElem?_eq_some.mp hsi
  obtain ⟨hj, -⟩ := List.getElem?_eq_some.mp hsj
  have hne : i - 1 ≠ i := by omega
  rw [swapBody_noFaults params doc fs i si sj hsi hsj]
  refine ⟨?_, ?_, ?_, rfl⟩
  · rw [List.getElem?_set_ne hne, List.getElem?_set_self hi]
  · rw [List.getElem?_set_self (by simpa using hj)]
  · intro k hki hkj
    rw [List.getElem?_set_ne (Ne.symm hkj), List.getElem?_set_ne (Ne.symm hki)]

/-- C10 witness: the concrete two-rung ladder. -/
theorem C10_swap_positions_only_witness :
    (swapBody [10, 20] noFaults initDoc fsAB 1).2.1.files[1]? =
        some { snapB with position := snapA.position } ∧
    (swapBody [10, 20] noFaults initDoc fsAB 1).2.1.files[0]? =
        some { snapA with position := snapB.position } ∧
    (∀ k, k ≠ 1 → k ≠ 0 →
        (swapBody [10, 20] noFaults initDoc fsAB 1).2.1.files[k]? =
          fsAB.files[k]?) ∧
    (swapBody [10, 20] noFaults initDoc fsAB 1).2.2 = none :=
  C10_swap_positions_only [10, 20] initDoc fsAB 1 snapB snapA
    (by decide) (by decide) (by decide)

/-! ### C9 — double swap is the identity on the snapshot files -/

/-- C9: applying the swap block twice in succession to the same pair (no
resubmission or simulation run in between) restores the entire file store —
both replicas' snapshots return to their original configurations. -/
theorem C9_double_swap_restores (p₁ p₂ : List Int) (d₁ d₂ : Doc) (fs : FS)
    (i : Nat) (si sj : Snapshot) (h1 : 1 ≤ i)
    (hsi : fs.files[i]? = some si) (hsj : fs.files[i - 1]? = some sj) :
    (swapBody p₂ noFaults d₂ (swapBody p₁ noFaults d₁ fs i).2.1 i).2.1 =
      fs := by
  obtain ⟨hi, -⟩ := List.getElem?_eq_some.mp hsi
  obtain ⟨hj, -⟩ := List.getElem?_eq_some.mp hsj
  have hne : i - 1 ≠ i := by omega
  rw [swapBody_noFaults p₁ d₁ fs i si sj hsi hsj]
  have h1i : ((fs.files.set i { si with position := sj.position }).set (i - 1)
      { sj with position := si.position })[i]? =
      some { si with position := sj.position } := by
    rw [List.getElem?_set_ne hne, List.getElem?_set_self hi]
  have h1j : ((fs.files.set i { si with position := sj.position }).set (i - 1)
      { sj with position := si.position })[i - 1]? =
      some { sj with position := si.position } := by
    rw [List.getElem?_set_self (by simpa using hj)]
  rw [swapBody_noFaults p₂ d₂ _ i _ _ h1i h1j]
  apply mk_files_eq
  apply List.ext_getElem?
  intro n
  by_cases hn1 : n = i - 1
  · subst hn1
    rw [List.getElem?_set_self (by simpa using hj), hsj]
  · by_cases hn2 : n = i
    · subst hn2
      rw [List.getElem?_set_ne (Ne.symm hn1),
          List.getElem?_set_self (by simpa using hi), hsi]
    · rw [List.getElem?_set_ne (Ne.symm hn1),
          List.getElem?_set_ne (Ne.symm hn2),
          List.getElem?_set_ne (Ne.symm hn1),
          List.getElem?_set_ne (Ne.symm hn2)]

/-- C9 witness: the concrete two-rung ladder, swapped twice. -/
theorem C9_double_swap_restores_witness :
    (swapBody [30] noFaults initDoc
        (swapBody [10, 20] noFaults initDoc fsAB 1).2.1 1).2.1 = fsAB :=
  C9_double_swap_restores [10, 20] [30] initDoc initDoc fsAB 1 snapB snapA
    (by decide) (by decide) (by decide)

/-! ### C7 — `len(swapHistory) == currentAttempt` -/

theorem swapBody_doc (params : List Int) (f : Faults) (doc : Doc) (fs : FS)
    (i : Nat) :
    (swapBody params f doc fs i).1 =
      { doc with
        swap_history := doc.swap_history ++
          [⟨i, i - 1, params.getD i 0, params.getD (i - 1) 0, i, i - 1,
            false⟩],
        current_attempt := doc.current_attempt + 1 } := by
  simp only [swapBody]
  split
  · rfl
  · split
    · rfl
    · split
      · rfl
      · split <;> rfl

theorem swapBody_fst (params : List Int) (f : Faults) (doc : Doc) (fs : FS)
    (i : Nat) (doc2 : Doc) (fs2 : FS) (err : Option PTError)
    (h : swapBody params f doc fs i = (doc2, fs2, err)) :
    doc2 =
      { doc with
        swap_history := doc.swap_history ++
          [⟨i, i - 1, params.getD i 0, params.getD (i - 1) 0, i, i - 1,
            false⟩],
        current_attempt := doc.current_attempt + 1 } := by
  have hd := swapBody_doc params f doc fs i
  rw [h] at hd
  exact hd

theorem finalizePrev_length (doc : Doc) :
    (finalizePrev doc).swap_history.length = doc.swap_history.length := by
  unfold finalizePrev
  split
  · exact markLastDone_length doc
  · rfl

theorem finalizePrev_attempt (doc : Doc) :
    (finalizePrev doc).current_attempt = doc.current_attempt := by
  unfold finalizePrev
  split
  · exact markLastDone_attempt doc
  · rfl

theorem loopIter_next_doc (nA nJobs : Nat) (params : List Int) (f : Faults)
    (poll : Bool) (r : Nat) (doc : Doc) (fs : FS) (doc' : Doc) (fs' : FS)
    (h : loopIter nA nJobs params f poll r doc fs = .next doc' fs') :
    doc' = doc ∨
      (doc'.swap_history.length = doc.swap_history.length + 1 ∧
       doc'.current_attempt = doc.current_attempt + 1) := by
  simp only [loopIter] at h
  by_cases hle : doc.current_attempt ≤ nA
  · rw [if_pos hle] at h
    cases poll with
    | false =>
        simp only [Bool.false_eq_true, if_false] at h
        injection h with h1 h2
        exact Or.inl h1.symm
    | true =>
        simp only [if_true] at h
        cases hri : randint 1 ((nJobs : Int) - 1) r with
        | error e =>
            simp only [hri] at h
            exact IterResult.noConfusion h
        | ok i =>
            simp only [hri] at h
            rcases hsw : swapBody params f (finalizePrev doc) fs i with
              ⟨doc2, fs2, err⟩
            simp only [hsw] at h
            cases err with
            | some e => exact IterResult.noConfusion h
            | none =>
                injection h with h1 h2
                right
                have hd2 :=
                  swapBody_fst params f (finalizePrev doc) fs i doc2 fs2
                    none hsw
                subst h1
                refine ⟨?_, ?_⟩
                · rw [hd2]
                  simp [List.length_append, finalizePrev_length]
                · rw [hd2]
                  simp [finalizePrev_attempt]
  · rw [if_neg hle] at h
    exact IterResult.noConfusion h

/-- C7: `len(swapHistory) == currentAttempt` holds initially (`init_PT.py`
creates the document with `current_attempt = 0` and `swap_history = []`) and
after every completed attempt iteration: an iteration with a false poll
returns the document unchanged, and every iteration that continues has either
left the document alone or appended exactly one `SwapRecord` while
incrementing `currentAttempt` by exactly one — so the invariant is preserved
by every iteration. -/
theorem C7_history_length_invariant :
    initDoc.swap_history.length = initDoc.current_attempt ∧
    (∀ (nA nJobs : Nat) (params : List Int) (f : Faults) (r : Nat)
        (doc : Doc) (fs : FS), doc.current_attempt ≤ nA →
        loopIter nA nJobs params f false r doc fs = .next doc fs) ∧
    (∀ (nA nJobs : Nat) (params : List Int) (f : Faults) (poll : Bool)
        (r : Nat) (doc doc' : Doc) (fs fs' : FS),
        loopIter nA nJobs params f poll r doc fs = .next doc' fs' →
        doc' = doc ∨
          (doc'.swap_history.length = doc.swap_history.length + 1 ∧
           doc'.current_attempt = doc.current_attempt + 1)) ∧
    (∀ (nA nJobs : Nat) (params : List Int) (f : Faults) (poll : Bool)
        (r : Nat) (doc doc' : Doc) (fs fs' : FS),
        doc.swap_history.length = doc.current_attempt →
        loopIter nA nJobs params f poll r doc fs = .next doc' fs' →
        doc'.swap_history.length = doc'.current_attempt) := by
  refine ⟨rfl, ?_, ?_, ?_⟩
  · intro nA nJobs params f r doc fs hle
    simp [loopIter, hle]
  · intro nA nJobs params f poll r doc doc' fs fs' h
    exact loopIter_next_doc nA nJobs params f poll r doc fs doc' fs' h
  · intro nA nJobs params f poll r doc doc' fs fs' hinv h
    rcases loopIter_next_doc nA nJobs params f poll r doc fs doc' fs' h with
      he | ⟨hl, ha⟩
    · rw [he]
      exact hinv
    · omega

/-- C7 witness: a concrete false-poll iteration leaves the initial document
(for which the invariant holds) unchanged. -/
theorem C7_history_length_invariant_witness :
    loopIter 2 2 [10, 20] noFaults false 0 initDoc fsAB =
      .next initDoc fsAB :=
  C7_history_length_invariant.2.1 2 2 [10, 20] noFaults 0 initDoc fsAB
    (by decide)

/-! ### C5 — when the ladder is built -/

/-- C5 counterexample: with a job store whose ladder changes after the run
starts (`[10, 20]` at query time 0, `[30, 40]` at every later query), the
record appended on attempt 1 still carries parameter `20` from the single
pre-loop query, not `40`, the upper parameter the store would report at the
start of attempt 1 — selection uses a snapshot taken before the loop,
refuting the claim. -/
theorem C5_counterexample :
    ((sampleRun 2 2 (fun q => if q = 0 then [10, 20] else [30, 40]) noFaults
        (fun _ => true) (fun _ => 0) initDoc fsAB).doc.swap_history)[1]? =
      some ⟨1, 0, 20, 10, 1, 0, false⟩ ∧
    ((fun q : Nat => if q = 0 then ([10, 20] : List Int) else [30, 40])
        1)[1]? = some (40 : Int) ∧
    (20 : Int) ≠ 40 := by
  decide

/-- C5 amended: the ladder is built by a single job-store query made before
the attempt loop (`parallel_tempering.py:195-200`); every attempt then uses
that pre-loop snapshot, so the whole run depends on the store only through
its state at coordinator start: two stores that agree at query time 0 yield
identical runs regardless of how they differ later. -/
theorem C5_amended (fuel nA : Nat) (s₁ s₂ : Nat → List Int) (f : Faults)
    (polls : Nat → Bool) (rand : Nat → Nat) (doc : Doc) (fs : FS)
    (h : s₁ 0 = s₂ 0) :
    sampleRun fuel nA s₁ f polls rand doc fs =
      sampleRun fuel nA s₂ f polls rand doc fs := by
  simp only [sampleRun, h]

/-- C5 amended witness: a constant store versus one that changes after the
first query. -/
theorem C5_amended_witness :
    sampleRun 2 2 (fun _ => [10, 20]) noFaults (fun _ => true) (fun _ => 0)
        initDoc fsAB =
      sampleRun 2 2 (fun q => if q = 0 then [10, 20] else [30, 40]) noFaults
        (fun _ => true) (fun _ => 0) initDoc fsAB :=
  C5_amended 2 2 (fun _ => [10, 20])
    (fun q => if q = 0 then [10, 20] else [30, 40]) noFaults
    (fun _ => true) (fun _ => 0) initDoc fsAB rfl

/-! ### C1 — number of swaps for `maxAttempts = 2` -/

theorem loopIter_poll_true_ok (nA nJobs : Nat) (params : List Int) (r : Nat)
    (doc : Doc) (fs : FS) (h2 : 2 ≤ nJobs) (hlen : fs.files.length = nJobs)
    (hle : doc.current_attempt ≤ nA) :
    ∃ doc' fs',
      loopIter nA nJobs params noFaults true r doc fs = .next doc' fs' ∧
      doc'.swap_history.length = doc.swap_history.length + 1 ∧
      doc'.current_attempt = doc.current_attempt + 1 ∧
      fs'.files.length = nJobs := by
  have hi := randint_ok nJobs r h2
  have hmod : r % (nJobs - 1) < nJobs - 1 := Nat.mod_lt r (by omega)
  have hilt : 1 + r % (nJobs - 1) < fs.files.length := by omega
  have hjlt : (1 + r % (nJobs - 1)) - 1 < fs.files.length := by omega
  have hsi : fs.files[1 + r % (nJobs - 1)]? =
      some (fs.files.get ⟨1 + r % (nJobs - 1), hilt⟩) :=
    List.getElem?_eq_getElem hilt
  have hsj : fs.files[(1 + r % (nJobs - 1)) - 1]? =
      some (fs.files.get ⟨(1 + r % (nJobs - 1)) - 1, hjlt⟩) :=
    List.getElem?_eq_getElem hjlt
  have hbody := swapBody_noFaults params (finalizePrev doc) fs
      (1 + r % (nJobs - 1)) _ _ hsi hsj
  have hloop : loopIter nA nJobs params noFaults true r doc fs =
      .next ((swapBody params noFaults (finalizePrev doc) fs
                (1 + r % (nJobs - 1))).1)
            ((swapBody params noFaults (finalizePrev doc) fs
                (1 + r % (nJobs - 1))).2.1) := by
    simp only [loopIter]
    rw [if_pos hle]
    simp [hi, hbody]
  refine ⟨_, _, hloop, ?_, ?_, ?_⟩
  · rw [swapBody_doc]
    simp [List.length_append, finalizePrev_length]
  · rw [swapBody_doc]
    simp [finalizePrev_attempt]
  · rw [hbody]
    simp [hlen]

/-- C1 counterexample: a concrete coordinator started at `currentAttempt = 0`
with `maxAttempts = 2`, two replicas, every poll succeeding: the run
terminates with three swap records, not two — the loop body also runs on
attempt 2 because the condition is `current_attempt <= n_attempts`. -/
theorem C1_counterexample :
    (sampleRun 10 2 (fun _ => [10, 20]) noFaults (fun _ => true) (fun _ => 0)
        initDoc fsAB).doc.swap_history.length = 3 ∧
    ¬ ((sampleRun 10 2 (fun _ => [10, 20]) noFaults (fun _ => true)
        (fun _ => 0) initDoc fsAB).doc.swap_history.length = 2) := by
  decide

/-- C1 amended: for a coordinator started with `currentAttempt = 0`,
`maxAttempts = 2`, and every poll succeeding, the attempt loop performs a
swap (appending one `SwapRecord` and incrementing `currentAttempt`) on
attempts 0, 1 and 2 — the loop body runs while `currentAttempt <=
maxAttempts` — and on attempt 3 it exits, setting the terminal flag without
selecting another swap, so exactly three `SwapRecord`s exist at
termination. -/
theorem C1_amended (nJobs : Nat) (params : List Int) (rand : Nat → Nat)
    (fs : FS) (h2 : 2 ≤ nJobs) (hlen : fs.files.length = nJobs) :
    ∃ doc' fs',
      sampleLoop 4 2 nJobs params noFaults (fun _ => true) rand 0 initDoc
          fs = .completed doc' fs' ∧
      doc'.swap_history.length = 3 ∧
      doc'.current_attempt = 3 ∧
      doc'.done = true := by
  have h0 : initDoc.current_attempt = 0 := rfl
  have hh0 : initDoc.swap_history.length = 0 := rfl
  obtain ⟨d1, f1, hI1, hl1, ha1, hn1⟩ :=
    loopIter_poll_true_ok 2 nJobs params (rand 0) initDoc fs h2 hlen
      (by omega)
  obtain ⟨d2, f2, hI2, hl2, ha2, hn2⟩ :=
    loopIter_poll_true_ok 2 nJobs params (rand 1) d1 f1 h2 hn1 (by omega)
  obtain ⟨d3, f3, hI3, hl3, ha3, hn3⟩ :=
    loopIter_poll_true_ok 2 nJobs params (rand 2) d2 f2 h2 hn2 (by omega)
  have hgt : ¬ (d3.current_attempt ≤ 2) := by omega
  have hexit : loopIter 2 nJobs params noFaults true (rand 3) d3 f3 =
      .exited { d3 with done := true } f3 := by
    simp [loopIter, hgt]
  refine ⟨{ d3 with done := true }, f3, ?_, ?_, ?_, rfl⟩
  · simp only [sampleLoop, hI1, hI2, hI3, hexit]
  · show d3.swap_history.length = 3
    omega
  · show d3.current_attempt = 3
    omega

/-- C1 amended witness: the concrete two-rung ladder. -/
theorem C1_amended_witness :
    ∃ doc' fs',
      sampleLoop 4 2 2 [10, 20] noFaults (fun _ => true) (fun _ => 0) 0
          initDoc fsAB = .completed doc' fs' ∧
      doc'.swap_history.length = 3 ∧
      doc'.current_attempt = 3 ∧
      doc'.done = true :=
  C1_amended 2 [10, 20] (fun _ => 0) fsAB (by decide) (by decide)

end PT
